import Mathlib

/-!
Verification of the Google Vertex AI web client (`src/langchain/src/llms/googlevertexai/web.ts`)
and the Remote Model Connection abstraction described in the repository spec.

The first part embeds the `GoogleVertexAI` class of `web.ts`: its constructor,
the static `lc_name`, and the `lc_secrets` getter.  Object allocation of the
`WebGoogleAuth` client is made explicit by threading a fresh-id counter, so
that object identity (which connection holds which client) is observable.

The second part models the connection's `send` / `sendStream` operations.
The `GoogleVertexAILLMConnection` implementation is not part of the sources,
so those operations are modelled from the spec (each such definition says so
in its doc comment).
-/

/-- Options accepted by the web auth client (`WebGoogleAuthOptions`):
service-account credentials may be passed directly. -/
structure WebGoogleAuthOptions where
  credentials : Option String
deriving Repr, DecidableEq

/-- The auth client built by `new WebGoogleAuth(fields?.authOptions)`.
The `objId` field models JavaScript object identity: each `new` allocation
receives a fresh id. -/
structure WebGoogleAuth where
  objId : Nat
  authOptions : Option WebGoogleAuthOptions
deriving Repr, DecidableEq

/-- Construction input `GoogleVertexAITextInput`: auth options plus the
generation parameters named by the spec (model identifier, temperature,
max tokens, stop sequences), each optional. -/
structure GoogleVertexAITextInput where
  model : Option String
  temperature : Option Int
  maxOutputTokens : Option Nat
  stopSequences : Option (List String)
  authOptions : Option WebGoogleAuthOptions
deriving Repr, DecidableEq

/-- Generation parameters held by the instance after `super(fields)`. -/
structure ModelParams where
  model : String
  temperature : Int
  maxOutputTokens : Nat
  stopSequences : List String
deriving Repr, DecidableEq

/-- Modelled from the spec: the defaulted parameters produced by the
`BaseGoogleVertexAI` base-class constructor (its code is not under the
sources; the spec says the connection is constructed with "default
generation parameters").  Each parameter is taken from `fields` when
present and defaulted otherwise. -/
def BaseGoogleVertexAI.init (fields : Option GoogleVertexAITextInput) : ModelParams :=
  { model := (fields.bind (fun f => f.model)).getD "default-model"
    temperature := (fields.bind (fun f => f.temperature)).getD 0
    maxOutputTokens := (fields.bind (fun f => f.maxOutputTokens)).getD 1024
    stopSequences := (fields.bind (fun f => f.stopSequences)).getD [] }

/-- Modelled from the spec: the async caller (`this.caller`) set up by the
base class; the spec assigns any retry policy to this transport
collaborator, so it carries a retry budget. -/
structure Caller where
  maxRetries : Nat
deriving Repr, DecidableEq

/-- Modelled from the spec: the caller installed by the base-class
constructor (code not under the sources). -/
def BaseGoogleVertexAI.initCaller (_fields : Option GoogleVertexAITextInput) : Caller :=
  { maxRetries := 6 }

/-- The first constructor argument of `GoogleVertexAILLMConnection`, the
spread `{ ...fields, ...this }`: the instance's (defaulted) parameters
override the same-named properties of `fields`, while `authOptions`
exists only on `fields` and survives the spread. -/
structure ConnectionConfig where
  authOptions : Option WebGoogleAuthOptions
  params : ModelParams
deriving Repr, DecidableEq

/-- Evaluation of the spread `{ ...fields, ...this }` in the constructor. -/
def mergeConfig (fields : Option GoogleVertexAITextInput) (params : ModelParams) :
    ConnectionConfig :=
  { authOptions := fields.bind (fun f => f.authOptions), params := params }

/-- A `GoogleVertexAILLMConnection` as constructed in `web.ts`: the merged
config, the caller, the auth client, and the trailing streaming flag. -/
structure GoogleVertexAILLMConnection where
  config : ConnectionConfig
  caller : Caller
  client : WebGoogleAuth
  streaming : Bool
deriving Repr, DecidableEq

/-- A constructed `GoogleVertexAI` instance. -/
structure GoogleVertexAI where
  params : ModelParams
  caller : Caller
  connection : GoogleVertexAILLMConnection
  streamedConnection : GoogleVertexAILLMConnection
deriving Repr, DecidableEq

/-- Embedding of the `GoogleVertexAI` constructor (`web.ts`, lines 35-53).
`nextId` is the fresh-object counter; the returned counter exposes how many
objects carrying identity (here: `WebGoogleAuth` clients) were allocated. -/
def GoogleVertexAI.construct (fields : Option GoogleVertexAITextInput) (nextId : Nat) :
    GoogleVertexAI × Nat :=
  let params := BaseGoogleVertexAI.init fields
  let caller := BaseGoogleVertexAI.initCaller fields
  let client : WebGoogleAuth :=
    { objId := nextId, authOptions := fields.bind (fun f => f.authOptions) }
  let config := mergeConfig fields params
  ({ params := params
     caller := caller
     connection :=
       { config := config, caller := caller, client := client, streaming := false }
     streamedConnection :=
       { config := config, caller := caller, client := client, streaming := true } },
   nextId + 1)

/-- Static `lc_name()` of `GoogleVertexAI` (`web.ts`, lines 25-27). -/
def GoogleVertexAI.lc_name : String := "VertexAI"

/-- The `lc_secrets` getter (`web.ts`, lines 29-33), an attribute-path to
environment-variable mapping. -/
def GoogleVertexAI.lc_secrets (_g : GoogleVertexAI) : List (String × String) :=
  [("authOptions.credentials", "GOOGLE_VERTEX_AI_WEB_CREDENTIALS")]

/-! ## The Remote Model Connection operations, modelled from the spec -/

/-- Typed error kinds of the connection (spec, section 7). -/
inductive ConnectionError where
  | AuthenticationError
  | TransportError
  | ResponseParseError
  | UnsupportedModelError
deriving Repr, DecidableEq

/-- One chat message of the request payload. -/
structure Message where
  role : String
  content : String
deriving Repr, DecidableEq

/-- ModelRequest (spec, section 3): provider name, model identifier,
messages payload and generation parameters. -/
structure ModelRequest where
  provider : String
  model : String
  messages : List Message
  temperature : Int
  maxTokens : Option Nat
  stopSequences : List String
deriving Repr, DecidableEq

/-- Usage metadata of a response. -/
structure Usage where
  tokens : Int
deriving Repr, DecidableEq

/-- ModelResponse (spec, section 3): generated text plus usage metadata. -/
structure ModelResponse where
  text : String
  usage : Usage
deriving Repr, DecidableEq

/-- One chunk of a streamed response: a text delta and its token count. -/
structure ModelResponseChunk where
  textDelta : String
  tokensDelta : Int
deriving Repr, DecidableEq

/-- Modelled from the spec: outcome of the auth collaborator's
`getToken()` (spec, section 6); the collaborator either supplies a
credential or fails. -/
inductive AuthOutcome where
  | token (t : String)
  | failure
deriving Repr, DecidableEq

/-- Modelled from the spec: what one outbound network call against the
deterministic endpoint yields.  A successful (2xx) body is the finite
chunk sequence (in streaming mode a JSON-lines stream; in non-streaming
mode the same content as one assembled JSON body); the body may instead
be malformed, the status may be non-2xx, or the call may fail/time out. -/
inductive EndpointOutcome where
  | chunks (cs : List ModelResponseChunk)
  | malformed
  | httpError (status : Nat)
  | networkFailure
deriving Repr, DecidableEq

/-- Modelled from the spec: a deterministic remote endpoint, the transport
collaborator (spec, section 6). -/
structure Endpoint where
  respond : ModelRequest → EndpointOutcome

/-- Text of the assembled body: concatenation of the chunk deltas. -/
def assembleText (cs : List ModelResponseChunk) : String :=
  cs.foldr (fun c acc => c.textDelta ++ acc) ""

/-- Token count of the assembled body: sum of the chunk token deltas. -/
def assembleTokens (cs : List ModelResponseChunk) : Int :=
  cs.foldr (fun c acc => c.tokensDelta + acc) 0

/-- Re-assembly of a finite chunk sequence into the single ModelResponse,
as the caller would concatenate the stream. -/
def concatChunks (cs : List ModelResponseChunk) : ModelResponse :=
  { text := assembleText cs, usage := { tokens := assembleTokens cs } }

/-- Modelled from the spec: `send(request) -> ModelResponse`
(spec, section 4.1).  The `GoogleVertexAILLMConnection` implementation is
not under the sources.  Credential-acquisition failure yields
`AuthenticationError`; a network failure or timeout yields
`TransportError`; HTTP 401 means the credential was rejected
(`AuthenticationError`, spec section 8), any other non-2xx status is a
`TransportError`; a body not matching the expected schema (malformed, or
negative usage) yields `ResponseParseError`.  Errors surface unmodified
and nothing is retried. -/
def send (auth : AuthOutcome) (ep : Endpoint) (req : ModelRequest) :
    Except ConnectionError ModelResponse :=
  match auth with
  | .failure => .error .AuthenticationError
  | .token _ =>
    match ep.respond req with
    | .networkFailure => .error .TransportError
    | .httpError s =>
      if s = 401 then .error .AuthenticationError else .error .TransportError
    | .malformed => .error .ResponseParseError
    | .chunks cs =>
      if 0 ≤ assembleTokens cs then .ok (concatChunks cs)
      else .error .ResponseParseError

/-- Modelled from the spec: the streaming variant
`sendStream(request) -> lazy sequence of ModelResponseChunk`
(spec, section 4.1), returning the finite chunk sequence delivered by the
same deterministic endpoint, with the same failure behaviour as `send`. -/
def sendStream (auth : AuthOutcome) (ep : Endpoint) (req : ModelRequest) :
    Except ConnectionError (List ModelResponseChunk) :=
  match auth with
  | .failure => .error .AuthenticationError
  | .token _ =>
    match ep.respond req with
    | .networkFailure => .error .TransportError
    | .httpError s =>
      if s = 401 then .error .AuthenticationError else .error .TransportError
    | .malformed => .error .ResponseParseError
    | .chunks cs =>
      if 0 ≤ assembleTokens cs then .ok cs
      else .error .ResponseParseError

/-- Modelled from the spec: `send` instrumented with the number of outbound
network calls it issues (spec, section 4.1: "issues exactly one outbound
network call per invocation").  No call is issued when credential
acquisition already failed; otherwise the endpoint is contacted exactly
once, with no retry by the connection. -/
def sendCounted (auth : AuthOutcome) (ep : Endpoint) (req : ModelRequest) :
    Except ConnectionError ModelResponse × Nat :=
  match auth with
  | .failure => (.error .AuthenticationError, 0)
  | .token t => (send (.token t) ep req, 1)

/-- Modelled from the spec: the call with the submitted request made
observable after the call returns — the connection only reads the request
to build the outgoing payload and hands it back unchanged
(spec, section 3 invariant). -/
def sendObs (auth : AuthOutcome) (ep : Endpoint) (req : ModelRequest) :
    Except ConnectionError ModelResponse × ModelRequest :=
  (send auth ep req, req)

/-- Modelled from the spec: as `sendObs` but for the streaming variant. -/
def sendStreamObs (auth : AuthOutcome) (ep : Endpoint) (req : ModelRequest) :
    Except ConnectionError (List ModelResponseChunk) × ModelRequest :=
  (sendStream auth ep req, req)

/-- Modelled from the spec: the connection's per-instance state visible to
`send`; the spec makes the adapter stateless, so the state holds only the
read-only collaborator reference. -/
structure ConnectionState where
  client : WebGoogleAuth
deriving Repr, DecidableEq

/-- Modelled from the spec: one `send` call as a state transformer over the
connection state (spec, section 5: no shared mutable state between
invocations). -/
def sendSt (auth : AuthOutcome) (ep : Endpoint) (s : ConnectionState)
    (req : ModelRequest) :
    Except ConnectionError ModelResponse × ConnectionState :=
  (send auth ep req, s)

/-- Two `send` calls run back to back through the shared connection state:
the second call starts from the state the first call left behind. -/
def sendTwo (auth : AuthOutcome) (ep : Endpoint) (s : ConnectionState)
    (r1 r2 : ModelRequest) :
    Except ConnectionError ModelResponse × Except ConnectionError ModelResponse :=
  let p1 := sendSt auth ep s r1
  let p2 := sendSt auth ep p1.2 r2
  (p1.1, p2.1)

/-- The example request of the spec's example scenario (section 8). -/
def exampleReq : ModelRequest :=
  { provider := "google"
    model := "test-model"
    messages := [{ role := "user", content := "hi" }]
    temperature := 0
    maxTokens := none
    stopSequences := [] }

/-- The mock endpoint of the spec's example scenario: it returns the body
with text "hello" and usage of 1 token for every request. -/
def exampleEp : Endpoint :=
  { respond := fun _ => .chunks [{ textDelta := "hello", tokensDelta := 1 }] }

/-- A mock endpoint that always answers HTTP 401 (spec, section 8). -/
def ep401 : Endpoint :=
  { respond := fun _ => .httpError 401 }

/-- A mock endpoint whose network call always fails or times out. -/
def epDown : Endpoint :=
  { respond := fun _ => .networkFailure }

/-- A mock endpoint that always returns malformed JSON (spec, section 8). -/
def epMalformed : Endpoint :=
  { respond := fun _ => .malformed }

/-! ## Theorems -/

/-- C1: the `GoogleVertexAI` constructor builds exactly two
`GoogleVertexAILLMConnection` objects, `connection` and
`streamedConnection`, whose construction arguments — merged config, caller
and auth client — are identical, except for the trailing streaming flag,
which is `false` for `connection` and `true` for `streamedConnection`. -/
theorem constructor_two_parallel_connections
    (fields : Option GoogleVertexAITextInput) (n : Nat) :
    let g := (GoogleVertexAI.construct fields n).1
    g.connection.config = g.streamedConnection.config ∧
    g.connection.caller = g.streamedConnection.caller ∧
    g.connection.client = g.streamedConnection.client ∧
    g.connection.streaming = false ∧
    g.streamedConnection.streaming = true := by
  refine ⟨rfl, rfl, rfl, rfl, rfl⟩

/-- C2: for every request against the same deterministic endpoint,
concatenating (in order) all chunks of the finite sequence returned by
`sendStream` yields exactly the single ModelResponse returned by `send`;
the two calls also fail identically. -/
theorem sendStream_concat_eq_send (auth : AuthOutcome) (ep : Endpoint)
    (req : ModelRequest) :
    (sendStream auth ep req).map concatChunks = send auth ep req := by
  cases auth with
  | failure => rfl
  | token t =>
    simp only [send, sendStream]
    cases h : ep.respond req with
    | chunks cs =>
      by_cases hn : 0 ≤ assembleTokens cs
      · simp [hn, Except.map]
      · simp [hn, Except.map]
    | malformed => rfl
    | httpError s =>
      by_cases hs : s = 401
      · simp [hs, Except.map]
      · simp [hs, Except.map]
    | networkFailure => rfl

/-- C3: `send` fails with exactly one typed error per failure cause —
`AuthenticationError` when credential acquisition fails, `TransportError`
when the network call fails or times out, `ResponseParseError` when the
payload does not match the expected schema — and each such error reaches
the caller unmodified, with no local recovery. -/
theorem send_typed_errors (auth : AuthOutcome) (ep : Endpoint)
    (req : ModelRequest) :
    (auth = .failure → send auth ep req = .error .AuthenticationError) ∧
    (∀ t, auth = .token t → ep.respond req = .networkFailure →
      send auth ep req = .error .TransportError) ∧
    (∀ t, auth = .token t → ep.respond req = .malformed →
      send auth ep req = .error .ResponseParseError) := by
  refine ⟨?_, ?_, ?_⟩
  · intro h; subst h; rfl
  · intro t h hr; subst h; simp [send, hr]
  · intro t h hr; subst h; simp [send, hr]

/-- Witness for C3: each failure cause produces its one typed error at a
concrete request. -/
theorem send_typed_errors_witness :
    send .failure exampleEp exampleReq = .error .AuthenticationError ∧
    send (.token "tok") epDown exampleReq = .error .TransportError ∧
    send (.token "tok") epMalformed exampleReq = .error .ResponseParseError :=
  ⟨(send_typed_errors .failure exampleEp exampleReq).1 rfl,
   (send_typed_errors (.token "tok") epDown exampleReq).2.1 "tok" rfl rfl,
   (send_typed_errors (.token "tok") epMalformed exampleReq).2.2 "tok" rfl rfl⟩

/-- C4: an invocation of `send` issues at most one outbound network call,
exactly one whenever credential acquisition succeeded; in particular, on a
transport that always returns HTTP 401 it fails with
`AuthenticationError` after exactly one attempt, with no retry by the
connection itself. -/
theorem send_one_network_call (auth : AuthOutcome) (ep : Endpoint)
    (req : ModelRequest) :
    (sendCounted auth ep req).2 ≤ 1 ∧
    (∀ t, auth = .token t → (sendCounted auth ep req).2 = 1) ∧
    (∀ t, auth = .token t → (∀ r, ep.respond r = .httpError 401) →
      sendCounted auth ep req = (.error .AuthenticationError, 1)) := by
  refine ⟨?_, ?_, ?_⟩
  · cases auth <;> simp [sendCounted]
  · intro t h; subst h; rfl
  · intro t h h401; subst h
    simp [sendCounted, send, h401 req]

/-- Witness for C4: on the always-401 endpoint, a concrete `send` fails
with `AuthenticationError` after exactly one network call. -/
theorem send_one_network_call_witness :
    sendCounted (.token "tok") ep401 exampleReq =
      (.error .AuthenticationError, 1) :=
  (send_one_network_call (.token "tok") ep401 exampleReq).2.2 "tok" rfl
    (fun _ => rfl)

/-- C5: every successful `send` returns a ModelResponse whose usage token
count is non-negative; and the spec's example scenario — the request with
model "test-model", one user message "hi" and temperature 0, against the
mock endpoint answering text "hello" with 1 token — yields exactly the
ModelResponse with text "hello" and usage of 1 token. -/
theorem send_usage_nonneg (auth : AuthOutcome) (ep : Endpoint)
    (req : ModelRequest) :
    (∀ resp, send auth ep req = .ok resp → 0 ≤ resp.usage.tokens) ∧
    send (.token "tok") exampleEp exampleReq =
      .ok { text := "hello", usage := { tokens := 1 } } := by
  constructor
  · intro resp h
    cases auth with
    | failure => simp [send] at h
    | token t =>
      cases hr : ep.respond req with
      | chunks cs =>
        simp only [send, hr] at h
        split at h
        · cases h
          assumption
        · cases h
      | malformed => simp [send, hr] at h
      | httpError s =>
        simp only [send, hr] at h
        split at h <;> cases h
      | networkFailure => simp [send, hr] at h
  · rfl

/-- Witness for C5: the non-negativity conclusion discharged at the
example scenario's concrete response. -/
theorem send_usage_nonneg_witness :
    (0 : Int) ≤ (ModelResponse.mk "hello" { tokens := 1 }).usage.tokens :=
  (send_usage_nonneg (.token "tok") exampleEp exampleReq).1
    { text := "hello", usage := { tokens := 1 } }
    (send_usage_nonneg (.token "tok") exampleEp exampleReq).2

/-- C6: the ModelRequest is never mutated by submission: the request
observed after `send` or `sendStream` returns (or fails) equals the
request as constructed. -/
theorem request_not_mutated (auth : AuthOutcome) (ep : Endpoint)
    (req : ModelRequest) :
    (sendObs auth ep req).2 = req ∧ (sendStreamObs auth ep req).2 = req :=
  ⟨rfl, rfl⟩

/-- C7: two `send` calls running through the shared connection state do not
contaminate each other: each resulting response equals the response of an
isolated `send` of its own request, so it depends only on that request
(and the fixed collaborators), never on the other call's parameters. -/
theorem send_no_cross_contamination (auth : AuthOutcome) (ep : Endpoint)
    (s : ConnectionState) (r1 r2 : ModelRequest) :
    sendTwo auth ep s r1 r2 = (send auth ep r1, send auth ep r2) ∧
    (∀ r2' : ModelRequest,
      (sendTwo auth ep s r1 r2).1 = (sendTwo auth ep s r1 r2').1) ∧
    (∀ r1' : ModelRequest,
      (sendTwo auth ep s r1 r2).2 = (sendTwo auth ep s r1' r2).2) :=
  ⟨rfl, fun _ => rfl, fun _ => rfl⟩

/-- C8: the constructor allocates exactly one `WebGoogleAuth` client (the
fresh-id counter advances by exactly one) and passes that same client —
the one with the freshly allocated identity — to both `connection` and
`streamedConnection`. -/
theorem one_shared_auth_client
    (fields : Option GoogleVertexAITextInput) (n : Nat) :
    (GoogleVertexAI.construct fields n).2 = n + 1 ∧
    (GoogleVertexAI.construct fields n).1.connection.client =
      (GoogleVertexAI.construct fields n).1.streamedConnection.client ∧
    (GoogleVertexAI.construct fields n).1.connection.client.objId = n :=
  ⟨rfl, rfl, rfl⟩

/-- C9: for every instance, `lc_secrets` is exactly the one-entry mapping
from "authOptions.credentials" to "GOOGLE_VERTEX_AI_WEB_CREDENTIALS", and
the static `lc_name` is exactly "VertexAI". -/
theorem lc_metadata_constant (g : GoogleVertexAI) :
    g.lc_secrets =
      [("authOptions.credentials", "GOOGLE_VERTEX_AI_WEB_CREDENTIALS")] ∧
    GoogleVertexAI.lc_name = "VertexAI" :=
  ⟨rfl, rfl⟩

/-- C10: the constructor is total on its optional argument: construction
with `fields` omitted succeeds, building the `WebGoogleAuth` client with
absent auth options and both connections with the instance's own defaulted
parameters. -/
theorem constructor_total_without_fields (n : Nat) :
    (GoogleVertexAI.construct none n).1.connection.client.authOptions = none ∧
    (GoogleVertexAI.construct none n).1.streamedConnection.client.authOptions = none ∧
    (GoogleVertexAI.construct none n).1.params = BaseGoogleVertexAI.init none ∧
    (GoogleVertexAI.construct none n).1.connection.config.params =
      (GoogleVertexAI.construct none n).1.params ∧
    (GoogleVertexAI.construct none n).1.streamedConnection.config.params =
      (GoogleVertexAI.construct none n).1.params ∧
    (GoogleVertexAI.construct none n).1.connection.config.authOptions = none :=
  ⟨rfl, rfl, rfl, rfl, rfl, rfl⟩
